import Mathlib

/-!
Verification of the pipecat-agent-builder generation core: a shallow
embedding of the requirements data model (`core/config.py`), the
requirements validators (`core/validators.py`), the output validator and
generation orchestrator (`main.py`), the remote cascade orchestration
(`mcp/cascade_client.py`), the deployment identifier derivation
(`deployment/pipecat_cloud.py`), and the template generation engine
(`generation/templates.py`, modelled from the specification since the
module itself is absent from the sources).

Python strings are modelled as Lean `String`, Python dicts of file names
to file contents as association lists with unique keys, Python `int` as
`Int`, and raised exceptions as the `Except.error` branch of `Except`.
-/

/-- Configuration for AI services, from `core/config.py` (`AIServiceConfig`). -/
structure AIServiceConfig where
  name : String
  provider : String
  api_key : Option String := none
  model : Option String := none
  voice_id : Option String := none
  language : String := "en"
deriving Repr, DecidableEq

/-- Configuration for deployment settings, from `core/config.py` (`DeploymentConfig`). -/
structure DeploymentConfig where
  platform : String := "pipecat-cloud"
  scaling_min : Int := 1
  scaling_max : Int := 10
  region : String := "us-west-2"
  environment : String := "production"
deriving Repr, DecidableEq

/-- Configuration for knowledge sources, from `core/config.py` (`KnowledgeSourceConfig`). -/
structure KnowledgeSourceConfig where
  type : String
  source : String
  processing_options : List (String × String) := []
deriving Repr, DecidableEq

/-- User requirements for the agent being built, from `core/config.py` (`AgentRequirements`). -/
structure AgentRequirements where
  name : String
  description : String
  use_case : String
  channels : List String := []
  languages : List String := ["en"]
  personality : String := "helpful and professional"
  stt_service : Option AIServiceConfig := none
  llm_service : Option AIServiceConfig := none
  tts_service : Option AIServiceConfig := none
  knowledge_sources : List KnowledgeSourceConfig := []
  integrations : List String := []
  deployment : DeploymentConfig := {}
deriving Repr, DecidableEq

/-- A generated file set: a Python dict from filename to file content,
modelled as an association list with unique keys. -/
def FileSet := List (String × String)
deriving Repr, DecidableEq

/-- Dict key membership test (`f in files` in Python). -/
def FileSet.lookup (files : FileSet) (key : String) : Option String :=
  List.lookup key files

/-- Python truthiness of a dict: `not generated_files` is true exactly when
the dict is empty. -/
def FileSet.isEmpty (files : FileSet) : Bool :=
  List.isEmpty files

/-- Python substring test `needle in hay` on strings: the characters of the
needle occur contiguously in the characters of the hay. -/
def strContains (hay needle : String) : Bool :=
  decide (needle.data <:+: hay.data)

/-- Result dict built by `_validate_generated_code` in `main.py`. -/
structure ValidationResult where
  valid : Bool
  warnings : List String
  errors : List String
deriving Repr, DecidableEq

/-- One iteration of the required-file loop of `_validate_generated_code`
(`main.py` lines 409-413): a missing required file appends one error naming
it and clears `valid`. -/
def checkRequiredFile (files : FileSet) (acc : ValidationResult) (f : String) : ValidationResult :=
  if (files.lookup f).isNone then
    { acc with errors := acc.errors ++ ["Missing required file: " ++ f], valid := false }
  else acc

/-- One iteration of the required-import loop of `_validate_generated_code`
(`main.py` lines 428-431): an expected identifier absent from the bot
source appends one warning. -/
def checkRequiredImport (content : String) (acc : ValidationResult) (i : String) : ValidationResult :=
  if strContains content i then acc
  else { acc with warnings := acc.warnings ++ ["Missing import: " ++ i] }

/-- The required-file block of `_validate_generated_code` (`main.py` lines
408-413): loop over the required files, recording an error per missing one. -/
def requiredFilesStep (files : FileSet) (r : ValidationResult) : ValidationResult :=
  ["bot.py", "requirements.txt", "Dockerfile"].foldl (checkRequiredFile files) r

/-- The syntax-check block of `_validate_generated_code` (`main.py` lines
415-423): when `bot.py` is present, run the parser; a raised syntax error is
caught and appended to `errors`. The oracle here covers only the outcomes
the `except SyntaxError` clause handles (success, or a caught syntax
error); the parser's non-SyntaxError failure modes, which that clause lets
propagate, are modelled separately by `ParseOutcome` and
`syntaxStepFallible` below. -/
def syntaxStep (parse : String → Option String) (files : FileSet) (r : ValidationResult) :
    ValidationResult :=
  match files.lookup "bot.py" with
  | some content =>
    match parse content with
    | some e =>
      { r with errors := r.errors ++ ["Syntax error in bot.py: " ++ e], valid := false }
    | none => r
  | none => r

/-- The required-import block of `_validate_generated_code` (`main.py` lines
425-431): when `bot.py` is present, each absent expected identifier appends a
warning. -/
def importsStep (files : FileSet) (r : ValidationResult) : ValidationResult :=
  match files.lookup "bot.py" with
  | some content => ["pipecat", "asyncio"].foldl (checkRequiredImport content) r
  | none => r

/-- The manifest block of `_validate_generated_code` (`main.py` lines
433-437): when `requirements.txt` is present but lacks the base runtime
package, append a warning. -/
def manifestStep (files : FileSet) (r : ValidationResult) : ValidationResult :=
  match files.lookup "requirements.txt" with
  | some content =>
    if strContains content "pipecat-ai" then r
    else { r with warnings := r.warnings ++ ["Missing pipecat-ai dependency"] }
  | none => r

/-- `_validate_generated_code` from `main.py` (lines 400-439), parameterised
by the Python parser `ast.parse` as an oracle `parse` returning `none` on
success and `some e` when it raises a syntax error with message `e` (the
`except SyntaxError` branch converts that exception into an error entry).
The four blocks run in statement order on the accumulating result dict,
which starts as valid with no warnings and no errors. This model describes
the result returned on every run in which the parser succeeds or fails
with a catchable syntax error; runs in which the parser raises any other
exception are modelled by `validateGeneratedCodeFallible` below. -/
def validateGeneratedCode (parse : String → Option String) (files : FileSet) : ValidationResult :=
  manifestStep files (importsStep files (syntaxStep parse files
    (requiredFilesStep files { valid := true, warnings := [], errors := [] })))

/-- `RequirementsValidator._validate_deployment_config` from
`core/validators.py` (lines 207-217): three sequential checks, each raising
`ValidationError` with the given message. -/
def validate_deployment_config (deployment : DeploymentConfig) : Except String Unit :=
  if deployment.scaling_min < 0 then
    Except.error "Minimum scaling cannot be negative"
  else if deployment.scaling_max < deployment.scaling_min then
    Except.error "Maximum scaling cannot be less than minimum"
  else if deployment.scaling_max > 100 then
    Except.error "Maximum scaling too high (limit: 100)"
  else Except.ok ()

/-- `ResourceValidator.validate_resource_limits` from `core/validators.py`
(lines 272-290), with `MAX_KNOWLEDGE_SOURCES = 10`, `MAX_INTEGRATIONS = 5`,
`MAX_LANGUAGES = 3`. -/
def validate_resource_limits (requirements : AgentRequirements) : Except String Unit :=
  if requirements.knowledge_sources.length > 10 then
    Except.error "Too many knowledge sources (max: 10)"
  else if requirements.integrations.length > 5 then
    Except.error "Too many integrations (max: 5)"
  else if requirements.languages.length > 3 then
    Except.error "Too many languages (max: 3)"
  else Except.ok ()

/-- The required files missing from a file set, in check order. -/
def missingRequiredFiles (files : FileSet) : List String :=
  ["bot.py", "requirements.txt", "Dockerfile"].filter fun f => (files.lookup f).isNone

/-- The error entries produced by the syntax check: one entry when `bot.py`
is present and the parser fails on its content, none otherwise. -/
def syntaxErrorEntries (parse : String → Option String) (files : FileSet) : List String :=
  match files.lookup "bot.py" with
  | some content =>
    match parse content with
    | some e => ["Syntax error in bot.py: " ++ e]
    | none => []
  | none => []

/-- The warning entries produced by the required-import check. -/
def importWarningEntries (files : FileSet) : List String :=
  match files.lookup "bot.py" with
  | some content =>
    (["pipecat", "asyncio"].filter fun i => !(strContains content i)).map
      fun i => "Missing import: " ++ i
  | none => []

/-- The warning entries produced by the manifest check. -/
def manifestWarningEntries (files : FileSet) : List String :=
  match files.lookup "requirements.txt" with
  | some content =>
    if strContains content "pipecat-ai" then [] else ["Missing pipecat-ai dependency"]
  | none => []

lemma foldl_checkRequiredFile (files : FileSet) :
    ∀ (l : List String) (acc : ValidationResult),
      l.foldl (checkRequiredFile files) acc =
        { valid := acc.valid && (l.filter fun f => (files.lookup f).isNone).isEmpty,
          warnings := acc.warnings,
          errors := acc.errors ++ (l.filter fun f => (files.lookup f).isNone).map
            fun f => "Missing required file: " ++ f } := by
  intro l
  induction l with
  | nil => intro acc; simp
  | cons x xs ih =>
    intro acc
    rw [List.foldl_cons, ih]
    unfold checkRequiredFile
    by_cases hx : (files.lookup x).isNone <;> simp [hx, List.filter_cons]

lemma foldl_checkRequiredImport (content : String) :
    ∀ (l : List String) (acc : ValidationResult),
      l.foldl (checkRequiredImport content) acc =
        { valid := acc.valid,
          warnings := acc.warnings ++ (l.filter fun i => !(strContains content i)).map
            fun i => "Missing import: " ++ i,
          errors := acc.errors } := by
  intro l
  induction l with
  | nil => intro acc; simp
  | cons x xs ih =>
    intro acc
    rw [List.foldl_cons, ih]
    unfold checkRequiredImport
    by_cases hx : strContains content x <;> simp [hx, List.filter_cons]

/-- Closed form of the output validator: errors are exactly the missing-file
entries followed by the syntax entries, warnings are exactly the import
entries followed by the manifest entries, and validity is the absence of
both kinds of error entries. -/
lemma validateGeneratedCode_closed_form (parse : String → Option String) (files : FileSet) :
    validateGeneratedCode parse files =
      { valid := (missingRequiredFiles files).isEmpty && (syntaxErrorEntries parse files).isEmpty,
        warnings := importWarningEntries files ++ manifestWarningEntries files,
        errors := (missingRequiredFiles files).map (fun f => "Missing required file: " ++ f)
          ++ syntaxErrorEntries parse files } := by
  unfold validateGeneratedCode requiredFilesStep syntaxStep importsStep manifestStep
    missingRequiredFiles syntaxErrorEntries importWarningEntries manifestWarningEntries
  rw [foldl_checkRequiredFile]
  rcases hb : files.lookup "bot.py" with _ | cb <;>
    rcases hr : files.lookup "requirements.txt" with _ | cr <;>
      simp only [hb, hr]
  case none.none => simp
  case none.some => split_ifs <;> simp
  case some.none =>
    rcases hp : parse cb with _ | e <;>
      simp only [hp] <;> rw [foldl_checkRequiredImport] <;> simp
  case some.some =>
    rcases hp : parse cb with _ | e <;>
      simp only [hp] <;> rw [foldl_checkRequiredImport] <;> split_ifs <;> simp

/-- Claim C3: for every input file set, the ValidationResult returned by the
output validator satisfies: `valid` is false iff the `errors` sequence is
non-empty, and `valid` equals the emptiness of `errors` (so the content of
the warnings sequence never affects `valid`). -/
theorem validator_valid_iff_no_errors (parse : String → Option String) (files : FileSet) :
    ((validateGeneratedCode parse files).valid = false ↔
      (validateGeneratedCode parse files).errors ≠ []) ∧
    (validateGeneratedCode parse files).valid = (validateGeneratedCode parse files).errors.isEmpty := by
  have h2 : (validateGeneratedCode parse files).valid
      = (validateGeneratedCode parse files).errors.isEmpty := by
    rw [validateGeneratedCode_closed_form]
    rcases missingRequiredFiles files with _ | ⟨a, as⟩ <;>
      rcases syntaxErrorEntries parse files with _ | ⟨b, bs⟩ <;> simp
  refine ⟨?_, h2⟩
  rw [h2]
  rcases (validateGeneratedCode parse files).errors with _ | ⟨x, xs⟩ <;> simp

/-- Claim C4: the output validator records one error naming each missing
required file, and the identifier and base-dependency absences are recorded
only as warnings, never as errors: the errors list consists exactly of the
missing-required-file entries plus the syntax entries, and the warnings list
consists exactly of the import entries plus the manifest entries. -/
theorem validator_error_warning_classification (parse : String → Option String)
    (files : FileSet) :
    (validateGeneratedCode parse files).errors =
      (missingRequiredFiles files).map (fun f => "Missing required file: " ++ f)
        ++ syntaxErrorEntries parse files ∧
    (validateGeneratedCode parse files).warnings =
      importWarningEntries files ++ manifestWarningEntries files := by
  rw [validateGeneratedCode_closed_form]
  exact ⟨rfl, rfl⟩

/-- Outcome of one call of the Python parser `ast.parse` on a source
string, with its full failure behaviour: success, a raised `SyntaxError`
(the only exception the validator catches), or a raised exception of any
other class — such as the documented `ValueError` on a source containing
null bytes in the CPython versions this repository targets, or a
`RecursionError` on deeply nested input. -/
inductive ParseOutcome where
  | ok : ParseOutcome
  | caughtError : String → ParseOutcome
  | otherError : String → ParseOutcome
deriving Repr, DecidableEq

/-- The syntax-check block of `_validate_generated_code` with the parser's
full failure behaviour: the `try` wraps only the `ast.parse` call and
`except SyntaxError` catches only syntax errors, so every other parser
exception propagates out of the validator. -/
def syntaxStepFallible (parse : String → ParseOutcome) (files : FileSet)
    (r : ValidationResult) : Except String ValidationResult :=
  match files.lookup "bot.py" with
  | some content =>
    match parse content with
    | ParseOutcome.ok => Except.ok r
    | ParseOutcome.caughtError e =>
      Except.ok { r with errors := r.errors ++ ["Syntax error in bot.py: " ++ e], valid := false }
    | ParseOutcome.otherError e => Except.error e
  | none => Except.ok r

/-- `_validate_generated_code` with the parser's full failure behaviour: the
blocks run in statement order, and an uncaught parser exception in the
syntax block aborts the whole function before the later blocks run. -/
def validateGeneratedCodeFallible (parse : String → ParseOutcome) (files : FileSet) :
    Except String ValidationResult :=
  match syntaxStepFallible parse files
      (requiredFilesStep files { valid := true, warnings := [], errors := [] }) with
  | Except.error e => Except.error e
  | Except.ok r => Except.ok (manifestStep files (importsStep files r))

/-- The errors sequence of a validator run that returned a result, and the
empty sequence for a run that raised. -/
def fallibleErrors : Except String ValidationResult → List String
  | Except.ok r => r.errors
  | Except.error _ => []

/-- Parse oracle for the concrete refutation: CPython `ast.parse` (in the
3.11-era interpreters this repository targets via its `FROM python:3.11`
container) raises `ValueError`, not `SyntaxError`, on a source string
containing a null byte, and succeeds on the empty suffix-free sources used
here otherwise. -/
def nullByteParse (s : String) : ParseOutcome :=
  if strContains s (String.mk [Char.ofNat 0]) then
    ParseOutcome.otherError "source code string cannot contain null bytes"
  else ParseOutcome.ok

lemma checkRequiredImport_errors (content : String) (r : ValidationResult) (i : String) :
    (checkRequiredImport content r i).errors = r.errors := by
  unfold checkRequiredImport
  split_ifs <;> rfl

lemma imports_manifest_preserve_errors (files : FileSet) (r : ValidationResult) :
    (manifestStep files (importsStep files r)).errors = r.errors := by
  unfold manifestStep importsStep
  rcases hb : files.lookup "bot.py" with _ | cb <;>
    rcases hr : files.lookup "requirements.txt" with _ | cr <;>
      simp [checkRequiredImport_errors, apply_ite]

/-- Counterexample to C5: on the file set whose entry point is the single
null byte, the parser raises `ValueError`, `except SyntaxError` does not
catch it, and the validator propagates the exception to its caller instead
of returning a ValidationResult. -/
theorem validator_raises_on_null_byte :
    validateGeneratedCodeFallible nullByteParse [("bot.py", String.mk [Char.ofNat 0])] =
      Except.error "source code string cannot contain null bytes" := by
  rfl

/-- Claim C5 as amended: for every input file set, the validator returns a
ValidationResult provided the parser does not fail with a non-SyntaxError
exception on the entry-point content, and a caught syntax failure is
converted into an entry of the errors sequence rather than propagating;
only a non-SyntaxError parser exception escapes to the caller. -/
theorem validator_raises_only_on_parser_crash (parse : String → ParseOutcome)
    (files : FileSet)
    (h : ∀ c, files.lookup "bot.py" = some c → ∀ m, parse c ≠ ParseOutcome.otherError m) :
    (validateGeneratedCodeFallible parse files).isOk = true ∧
    (∀ c e, files.lookup "bot.py" = some c → parse c = ParseOutcome.caughtError e →
      ("Syntax error in bot.py: " ++ e) ∈
        fallibleErrors (validateGeneratedCodeFallible parse files)) := by
  rcases hb : files.lookup "bot.py" with _ | content
  · have hval : validateGeneratedCodeFallible parse files =
        Except.ok (manifestStep files (importsStep files
          (requiredFilesStep files { valid := true, warnings := [], errors := [] }))) := by
      unfold validateGeneratedCodeFallible syntaxStepFallible
      simp [hb]
    rw [hval]
    refine ⟨rfl, ?_⟩
    intro c e hc
    exact absurd hc (by simp)
  · rcases hp : parse content with _ | e0 | m
    · have hval : validateGeneratedCodeFallible parse files =
          Except.ok (manifestStep files (importsStep files
            (requiredFilesStep files { valid := true, warnings := [], errors := [] }))) := by
        unfold validateGeneratedCodeFallible syntaxStepFallible
        simp [hb, hp]
      rw [hval]
      refine ⟨rfl, ?_⟩
      intro c e hc hpe
      injection hc with hc
      rw [← hc, hp] at hpe
      exact absurd hpe (by simp)
    · have hval : validateGeneratedCodeFallible parse files =
          Except.ok (manifestStep files (importsStep files
            { valid := false,
              warnings := (requiredFilesStep files
                { valid := true, warnings := [], errors := [] }).warnings,
              errors := (requiredFilesStep files
                { valid := true, warnings := [], errors := [] }).errors
                  ++ ["Syntax error in bot.py: " ++ e0] })) := by
        unfold validateGeneratedCodeFallible syntaxStepFallible
        simp [hb, hp]
      rw [hval]
      refine ⟨rfl, ?_⟩
      intro c e hc hpe
      injection hc with hc
      rw [← hc, hp] at hpe
      injection hpe with hpe
      simp only [fallibleErrors]
      rw [imports_manifest_preserve_errors]
      simp [hpe]
    · exact absurd hp (h content hb m)

/-- Witness for the amended C5 at a concrete file set whose parser outcome
is a caught syntax error. -/
theorem validator_raises_only_on_parser_crash_witness :
    (validateGeneratedCodeFallible (fun _ => ParseOutcome.caughtError "bad")
      [("bot.py", "x")]).isOk = true ∧
    ("Syntax error in bot.py: " ++ "bad") ∈
      fallibleErrors (validateGeneratedCodeFallible
        (fun _ => ParseOutcome.caughtError "bad") [("bot.py", "x")]) := by
  have h := validator_raises_only_on_parser_crash
    (fun _ => ParseOutcome.caughtError "bad") [("bot.py", "x")]
    (by intro c hc m hcontra; simp at hcontra)
  exact ⟨h.1, h.2 "x" "bad" rfl rfl⟩

/-- Claim C9: the deployment-config check accepts exactly the configurations
satisfying the invariant that scaling bounds lie between 0 and 100 in order,
and raises a validation error exactly when the minimum is negative, the
maximum is below the minimum, or the maximum exceeds 100. -/
theorem deployment_config_invariant (d : DeploymentConfig) :
    (validate_deployment_config d = Except.ok () ↔
      0 ≤ d.scaling_min ∧ d.scaling_min ≤ d.scaling_max ∧ d.scaling_max ≤ 100) ∧
    ((∃ e, validate_deployment_config d = Except.error e) ↔
      (d.scaling_min < 0 ∨ d.scaling_max < d.scaling_min ∨ 100 < d.scaling_max)) := by
  unfold validate_deployment_config
  split_ifs <;> simp <;> omega

/-- Claim C10: the resource-limit check raises a validation error exactly
when there are more than 10 knowledge sources, more than 5 integrations, or
more than 3 languages, and returns normally otherwise; in particular no
build passes this check with more than 3 languages. -/
theorem resource_limits_caps (r : AgentRequirements) :
    (validate_resource_limits r = Except.ok () ↔
      r.knowledge_sources.length ≤ 10 ∧ r.integrations.length ≤ 5 ∧
        r.languages.length ≤ 3) ∧
    ((∃ e, validate_resource_limits r = Except.error e) ↔
      (10 < r.knowledge_sources.length ∨ 5 < r.integrations.length ∨
        3 < r.languages.length)) := by
  unfold validate_resource_limits
  split_ifs <;> simp <;> omega

/-- Python `str.lower()` on the character sequence (the validated agent
names are ASCII, where per-character lowering coincides with Python). -/
def pyLower (s : String) : String :=
  String.mk (s.data.map Char.toLower)

/-- Python single-character `str.replace(a, b)`: replace every occurrence
of character `a` by character `b`. -/
def pyReplaceChar (s : String) (a b : Char) : String :=
  String.mk (s.data.map fun c => if c = a then b else c)

/-- The agent directory identifier from `_save_generated_files` in
`main.py` (line 505) and `_save_files` in `mvp_main.py` (line 110):
lowercase, then spaces to underscores, then hyphens to underscores. -/
def saveSlug (name : String) : String :=
  pyReplaceChar (pyReplaceChar (pyLower name) ' ' '_') '-' '_'

/-- The deployment identifier from `_deploy_to_cloud` (line 188) and
`_build_docker_image` (line 72) in `deployment/pipecat_cloud.py`:
lowercase, then spaces to hyphens, then underscores to hyphens. -/
def deploySlug (name : String) : String :=
  pyReplaceChar (pyReplaceChar (pyLower name) ' ' '-') '_' '-'

/-- Counterexample to C7: on the agent name "Test Agent" the directory
identifier and the deployment identifier disagree, so the same logical
agent maps to two different identifiers. -/
theorem slug_functions_disagree :
    saveSlug "Test Agent" = "test_agent" ∧ deploySlug "Test Agent" = "test-agent" ∧
      saveSlug "Test Agent" ≠ deploySlug "Test Agent" := by
  refine ⟨by decide, by decide, ?_⟩
  decide

/-- Claim C7 as amended: the directory identifier and the deployment
identifier are computed by two different slugging functions, which agree
on an agent name whenever its lowercased form contains no space, hyphen,
or underscore (and disagree otherwise, as the counterexample shows). -/
theorem slug_agreement_without_separators (name : String)
    (h : ∀ c ∈ (pyLower name).data, c ≠ ' ' ∧ c ≠ '-' ∧ c ≠ '_') :
    saveSlug name = deploySlug name := by
  unfold saveSlug deploySlug pyReplaceChar
  simp only [List.map_map]
  congr 1
  apply List.map_congr_left
  intro c hc
  obtain ⟨h1, h2, h3⟩ := h c hc
  simp [Function.comp, h1, h2, h3]

/-- Witness for the amended C7 at a separator-free concrete name. -/
theorem slug_agreement_without_separators_witness :
    saveSlug "Agent7" = deploySlug "Agent7" :=
  slug_agreement_without_separators "Agent7" (by decide)

/-- Outcome of the validate-then-save slice of the build flow: which files
were persisted to which directory identifier, and which diagnostics were
surfaced. -/
structure PersistOutcome where
  persisted : Option (String × FileSet)
  surfaced : List String

/-- Steps 4 and 5 of `build_agent_interactive` in `main.py` (lines 254-266):
the validation result is computed, its problems are surfaced as a logged
diagnostic when `valid` is false, and the generated files are then saved to
the agent directory unconditionally — there is no branch that skips the
save on an invalid result. -/
def validateAndPersist (req : AgentRequirements) (parse : String → Option String)
    (files : FileSet) : PersistOutcome :=
  let v := validateGeneratedCode parse files
  { surfaced := if v.valid then [] else v.warnings,
    persisted := some (saveSlug req.name, files) }

/-- Claim C8: a validation result with `valid = false` never prevents file
persistence — the generated files are saved to the agent directory whatever
the validation outcome — and the validation problems are surfaced as
diagnostics when the result is invalid. -/
theorem persist_then_report (req : AgentRequirements) (parse : String → Option String)
    (files : FileSet) :
    (validateAndPersist req parse files).persisted = some (saveSlug req.name, files) ∧
    (validateAndPersist req parse files).surfaced =
      (if (validateGeneratedCode parse files).valid then []
        else (validateGeneratedCode parse files).warnings) :=
  ⟨rfl, rfl⟩

/-- Result of the remote generate step (`generate_pipecat_agent` in
`mcp/cascade_client.py`): the orchestration only ever consumes its
`code_files` mapping (`agent_result.get("code_files", {})`). -/
structure CascadeGenerateResult where
  code_files : FileSet
deriving Repr, DecidableEq

/-- Result dict of `CascadeOrchestrator.build_complete_agent`
(`mcp/cascade_client.py` lines 279-287), restricted to the fields the
caller in `main.py` reads. -/
structure CascadeBuildResult where
  agent_code : CascadeGenerateResult
  build_status : String
deriving Repr, DecidableEq

/-- The six remote calls driven by `build_complete_agent`, each one an
awaited request that either returns a result or raises; the payloads of
the five enrichment steps are never consumed by the orchestration, so they
are modelled as unit. -/
structure CascadeSteps where
  generateStep : Except String CascadeGenerateResult
  optimizeStep : Except String Unit
  knowledgeStep : Except String Unit
  deployStep : FileSet → Except String Unit
  validateStep : FileSet → Except String Unit
  testStep : FileSet → Except String Unit

/-- `CascadeOrchestrator.build_complete_agent` from `mcp/cascade_client.py`
(lines 240-287): the six steps run in sequence; the knowledge step runs
only when `requirements.knowledge_sources` is non-empty; there is no
exception handling, so the first failing step aborts the whole build. -/
def buildCompleteAgent (req : AgentRequirements) (steps : CascadeSteps) :
    Except String CascadeBuildResult :=
  match steps.generateStep with
  | Except.error e => Except.error e
  | Except.ok agentResult =>
    match steps.optimizeStep with
    | Except.error e => Except.error e
    | Except.ok _ =>
      match (if req.knowledge_sources.isEmpty then Except.ok () else steps.knowledgeStep) with
      | Except.error e => Except.error e
      | Except.ok _ =>
        match steps.deployStep agentResult.code_files with
        | Except.error e => Except.error e
        | Except.ok _ =>
          match steps.validateStep agentResult.code_files with
          | Except.error e => Except.error e
          | Except.ok _ =>
            match steps.testStep agentResult.code_files with
            | Except.error e => Except.error e
            | Except.ok _ =>
              Except.ok { agent_code := agentResult, build_status := "complete" }

/-- The remote branch of `_generate_agent_code_with_fallback` in `main.py`
(lines 369-384): entering the cascade context raises when the connection
fails; otherwise the full remote build runs, its `code_files` mapping is
extracted, and an empty mapping raises `CodeGenerationError` inside the
same `try`, so it too surfaces as a failure of the remote branch. -/
def remoteAttempt (req : AgentRequirements) (connected : Bool) (steps : CascadeSteps) :
    Except String FileSet :=
  if connected then
    match buildCompleteAgent req steps with
    | Except.error e => Except.error e
    | Except.ok result =>
      if result.agent_code.code_files.isEmpty then
        Except.error "Cascade returned empty result"
      else Except.ok result.agent_code.code_files
  else Except.error "Failed to connect to Windsurf Cascade"

/-- The template branch of `_generate_agent_code_with_fallback` in `main.py`
(lines 386-398): the template generator is invoked, an empty result raises
`CodeGenerationError` inside the `try`, and the enclosing handler rewraps
every failure of this branch into the final `CodeGenerationError`. -/
def templateFallback (templateResult : Except String FileSet) : Except String FileSet :=
  match templateResult with
  | Except.ok files =>
    if files.isEmpty then
      Except.error
        "Both Cascade and template generation failed: Template generation returned empty result"
    else Except.ok files
  | Except.error e =>
    Except.error ("Both Cascade and template generation failed: " ++ e)

/-- `_generate_agent_code_with_fallback` from `main.py` (lines 365-398):
both `except MCPConnectionError` and `except Exception` fall through to the
template branch, so every failure of the remote branch is absorbed. -/
def generateAgentCodeWithFallback (req : AgentRequirements) (connected : Bool)
    (steps : CascadeSteps) (templateResult : Except String FileSet) :
    Except String FileSet :=
  match remoteAttempt req connected steps with
  | Except.ok files => Except.ok files
  | Except.error _ => templateFallback templateResult

/-- The hypothesis of the fallback contract: the remote-generation
collaborator raises some exception (connection or any step), or returns an
empty `code_files` mapping. -/
def RemoteFails (req : AgentRequirements) (connected : Bool) (steps : CascadeSteps) : Prop :=
  connected = false ∨ (∃ e, buildCompleteAgent req steps = Except.error e) ∨
    (∃ r, buildCompleteAgent req steps = Except.ok r ∧ r.agent_code.code_files = [])

lemma remoteAttempt_error_of_remoteFails (req : AgentRequirements) (connected : Bool)
    (steps : CascadeSteps) (h : RemoteFails req connected steps) :
    ∃ e, remoteAttempt req connected steps = Except.error e := by
  unfold remoteAttempt
  rcases h with hc | ⟨e, he⟩ | ⟨r, hr, hempty⟩
  · rw [hc]
    exact ⟨_, rfl⟩
  · cases connected
    · exact ⟨_, rfl⟩
    · rw [he]
      exact ⟨e, rfl⟩
  · cases connected
    · exact ⟨_, rfl⟩
    · rw [hr]
      have hT : r.agent_code.code_files.isEmpty = true := by
        rw [hempty]
        rfl
      exact ⟨"Cascade returned empty result", by simp [hT]⟩

/-- Claim C1: whenever the remote-generation collaborator raises any
exception or returns an empty `code_files` mapping, the orchestrator
returns exactly what the template path yields — the same file mapping as a
direct call of the template generator when that call returns a non-empty
mapping — no remote exception propagates, and a `CodeGenerationError`
results only when the template path also throws or returns an empty
mapping. -/
theorem fallback_correctness (req : AgentRequirements) (connected : Bool)
    (steps : CascadeSteps) (tmpl : Except String FileSet)
    (h : RemoteFails req connected steps) :
    generateAgentCodeWithFallback req connected steps tmpl = templateFallback tmpl ∧
    (∀ files, tmpl = Except.ok files → files ≠ [] →
      generateAgentCodeWithFallback req connected steps tmpl = Except.ok files) ∧
    (∀ msg, generateAgentCodeWithFallback req connected steps tmpl = Except.error msg →
      tmpl = Except.ok [] ∨ ∃ e, tmpl = Except.error e) := by
  obtain ⟨e, he⟩ := remoteAttempt_error_of_remoteFails req connected steps h
  have hmain : generateAgentCodeWithFallback req connected steps tmpl = templateFallback tmpl := by
    unfold generateAgentCodeWithFallback
    rw [he]
  refine ⟨hmain, ?_, ?_⟩
  · intro files hf hne
    rw [hmain, hf]
    unfold templateFallback
    have hF : files.isEmpty = false := by
      cases files
      · exact absurd rfl hne
      · rfl
    simp [hF]
  · intro msg hmsg
    rw [hmain] at hmsg
    rcases tmpl with e' | files
    · exact Or.inr ⟨e', rfl⟩
    · left
      unfold templateFallback at hmsg
      rcases hfe : files.isEmpty
      · simp [hfe] at hmsg
      · have hnil : files = [] := by
          cases files
          · rfl
          · exact absurd hfe (by simp [FileSet.isEmpty, List.isEmpty])
        rw [hnil]

/-- A concrete structurally valid requirements object, matching the basic
test requirements of `test_templates.py`. -/
def sampleRequirements : AgentRequirements :=
  { name := "Test Agent", description := "A test agent", use_case := "customer_service",
    channels := ["web"], languages := ["en"] }

/-- A remote run whose six steps all succeed, producing one remote file. -/
def sampleSteps : CascadeSteps :=
  { generateStep := Except.ok { code_files := [("bot.py", "remote bot")] },
    optimizeStep := Except.ok (), knowledgeStep := Except.ok (),
    deployStep := fun _ => Except.ok (), validateStep := fun _ => Except.ok (),
    testStep := fun _ => Except.ok () }

/-- Witness for C1: with the remote collaborator unreachable and a template
result of one file, the orchestrator returns exactly the template result. -/
theorem fallback_correctness_witness :
    generateAgentCodeWithFallback sampleRequirements false sampleSteps
      (Except.ok [("bot.py", "template bot")]) = Except.ok [("bot.py", "template bot")] :=
  (fallback_correctness sampleRequirements false sampleSteps
    (Except.ok [("bot.py", "template bot")]) (Or.inl rfl)).2.1
    [("bot.py", "template bot")] rfl (by simp)

/-- A remote run whose generate step succeeds with a non-empty `code_files`
mapping but whose optimize step fails. -/
def enrichFailSteps : CascadeSteps :=
  { generateStep := Except.ok { code_files := [("bot.py", "remote bot")] },
    optimizeStep := Except.error "optimization failed",
    knowledgeStep := Except.ok (), deployStep := fun _ => Except.ok (),
    validateStep := fun _ => Except.ok (), testStep := fun _ => Except.ok () }

/-- Counterexample to C6: the remote generate step succeeds with a
non-empty `code_files` mapping and only the subsequent optimize step fails,
yet the build does not proceed with the remote-generated files — it returns
the template files instead, because `build_complete_agent` lets the
enrichment failure abort the whole remote attempt. -/
theorem enrichment_failure_discards_remote_files :
    enrichFailSteps.generateStep = Except.ok { code_files := [("bot.py", "remote bot")] } ∧
    buildCompleteAgent sampleRequirements enrichFailSteps =
      Except.error "optimization failed" ∧
    generateAgentCodeWithFallback sampleRequirements true enrichFailSteps
      (Except.ok [("bot.py", "template bot")]) = Except.ok [("bot.py", "template bot")] ∧
    ¬ generateAgentCodeWithFallback sampleRequirements true enrichFailSteps
      (Except.ok [("bot.py", "template bot")]) = Except.ok [("bot.py", "remote bot")] := by
  refine ⟨rfl, rfl, rfl, ?_⟩
  intro hcontra
  have heq : ([("bot.py", "template bot")] : FileSet) = [("bot.py", "remote bot")] := by
    have h1 : generateAgentCodeWithFallback sampleRequirements true enrichFailSteps
        (Except.ok [("bot.py", "template bot")]) = Except.ok [("bot.py", "template bot")] := rfl
    rw [h1] at hcontra
    injection hcontra
  have hstr := congrArg (fun l => (l.headD ("", "")).snd) heq
  simp at hstr

/-- Claim C6 as amended: when the remote generate step succeeds with a
non-empty `code_files` mapping but any subsequent remote step fails, the
remote attempt as a whole fails, the remote files are discarded, and the
orchestrator proceeds with the template path instead. -/
theorem enrichment_failure_falls_back (req : AgentRequirements) (steps : CascadeSteps)
    (tmpl : Except String FileSet) (gen : CascadeGenerateResult) (e : String)
    (h1 : steps.generateStep = Except.ok gen) (h2 : gen.code_files ≠ [])
    (h3 : buildCompleteAgent req steps = Except.error e) :
    generateAgentCodeWithFallback req true steps tmpl = templateFallback tmpl := by
  have hrem : remoteAttempt req true steps = Except.error e := by
    simp [remoteAttempt, h3]
  unfold generateAgentCodeWithFallback
  rw [hrem]

/-- Witness for the amended C6 at the concrete failing-optimize run. -/
theorem enrichment_failure_falls_back_witness :
    generateAgentCodeWithFallback sampleRequirements true enrichFailSteps
      (Except.ok [("bot.py", "template bot")]) =
      templateFallback (Except.ok [("bot.py", "template bot")]) :=
  enrichment_failure_falls_back sampleRequirements enrichFailSteps
    (Except.ok [("bot.py", "template bot")]) { code_files := [("bot.py", "remote bot")] }
    "optimization failed" rfl (by simp) rfl

/-- Modelled from the spec: the service-selection rule of the template
generator (spec section 4.1) for the speech-to-text slot — the module
`generation/templates.py` that implements `PipecatTemplateGenerator` is
imported by `main.py` but absent from the repository sources. A present
service choice selects a provider block, an unknown provider falls back to
the documented default block, and an absent choice substitutes the default
provider, so the entry point always has exactly one construction block. -/
def sttBlock (svc : Option AIServiceConfig) : String :=
  match svc with
  | some s =>
    if s.provider = "deepgram" then
      "stt = DeepgramSTTService(api_key=os.getenv(DEEPGRAM_API_KEY))\n"
    else if s.provider = "whisper" then
      "stt = WhisperSTTService()\n"
    else
      "stt = DeepgramSTTService(api_key=os.getenv(DEEPGRAM_API_KEY))\n"
  | none => "stt = DeepgramSTTService(api_key=os.getenv(DEEPGRAM_API_KEY))\n"

/-- Modelled from the spec: the service-selection rule for the language
model slot, defaulting to the openai provider. -/
def llmBlock (svc : Option AIServiceConfig) : String :=
  match svc with
  | some s =>
    if s.provider = "openai" then
      "llm = OpenAILLMService(api_key=os.getenv(OPENAI_API_KEY))\n"
    else if s.provider = "anthropic" then
      "llm = AnthropicLLMService(api_key=os.getenv(ANTHROPIC_API_KEY))\n"
    else
      "llm = OpenAILLMService(api_key=os.getenv(OPENAI_API_KEY))\n"
  | none => "llm = OpenAILLMService(api_key=os.getenv(OPENAI_API_KEY))\n"

/-- Modelled from the spec: the service-selection rule for the text-to-speech
slot, defaulting to the cartesia provider. -/
def ttsBlock (svc : Option AIServiceConfig) : String :=
  match svc with
  | some s =>
    if s.provider = "cartesia" then
      "tts = CartesiaTTSService(api_key=os.getenv(CARTESIA_API_KEY))\n"
    else if s.provider = "elevenlabs" then
      "tts = ElevenLabsTTSService(api_key=os.getenv(ELEVENLABS_API_KEY))\n"
    else
      "tts = CartesiaTTSService(api_key=os.getenv(CARTESIA_API_KEY))\n"
  | none => "tts = CartesiaTTSService(api_key=os.getenv(CARTESIA_API_KEY))\n"

/-- Modelled from the spec: transport selection — a phone channel includes
the phone-transport block, otherwise the web-transport block is used, and
both coexist when both channels are requested. -/
def transportBlock (channels : List String) : String :=
  (if channels.contains "phone" then
    "transport_phone = DailyTransport(DailyParams(phone=True))\n"
  else "")
  ++ (if channels.contains "web" || !(channels.contains "phone") then
    "transport_web = DailyTransport(DailyParams())\n"
  else "")

/-- Modelled from the spec: localization — more than one language injects a
multilingual-support block referencing the full language list. -/
def languageBlock (languages : List String) : String :=
  if languages.length > 1 then
    "languages = [" ++ String.intercalate ", " languages ++ "]\nmultilingual = True\n"
  else ""

/-- Modelled from the spec: knowledge integration — a non-empty knowledge
source list injects an import-and-usage block referencing the well-known
symbol exported by the auxiliary module. -/
def knowledgeImportBlock (ks : List KnowledgeSourceConfig) : String :=
  if ks.isEmpty then ""
  else "from knowledge_processor import KnowledgeProcessor\nknowledge = KnowledgeProcessor()\n"

/-- Modelled from the spec: the generated entry-point program, composed of
the header, imports, service blocks, transport blocks, localization block,
knowledge block and runner. -/
def botPy (req : AgentRequirements) : String :=
  "# " ++ req.name ++ " - " ++ req.description ++ "\n"
  ++ "import asyncio\nimport os\nfrom pipecat.pipeline.pipeline import Pipeline\n"
  ++ knowledgeImportBlock req.knowledge_sources
  ++ sttBlock req.stt_service ++ llmBlock req.llm_service ++ ttsBlock req.tts_service
  ++ transportBlock req.channels
  ++ languageBlock req.languages
  ++ "persona = " ++ req.personality ++ "\n"
  ++ "async def main():\n    pipeline = Pipeline([stt, llm, tts])\n\nasyncio.run(main())\n"

/-- Modelled from the spec: one manifest dependency per selected or default
speech-to-text provider. -/
def sttDep (svc : Option AIServiceConfig) : String :=
  match svc with
  | some s => if s.provider = "whisper" then "openai-whisper\n" else "deepgram-sdk\n"
  | none => "deepgram-sdk\n"

/-- Modelled from the spec: one manifest dependency per selected or default
language-model provider. -/
def llmDep (svc : Option AIServiceConfig) : String :=
  match svc with
  | some s => if s.provider = "anthropic" then "anthropic\n" else "openai\n"
  | none => "openai\n"

/-- Modelled from the spec: one manifest dependency per selected or default
text-to-speech provider. -/
def ttsDep (svc : Option AIServiceConfig) : String :=
  match svc with
  | some s => if s.provider = "elevenlabs" then "elevenlabs\n" else "cartesia\n"
  | none => "cartesia\n"

/-- Modelled from the spec: the known package mapping for integrations;
unknown integrations are silently omitted from the manifest. -/
def integrationDep (i : String) : String :=
  if i = "twilio" then "twilio\n"
  else if i = "slack" then "slack-sdk\n"
  else if i = "zendesk" then "zenpy\n"
  else ""

/-- Modelled from the spec: the dependency manifest — the base runtime
dependency unconditionally, one line per selected provider, and one line
per requested integration with a known package mapping. -/
def requirementsManifest (req : AgentRequirements) : String :=
  "pipecat-ai\n" ++ sttDep req.stt_service ++ llmDep req.llm_service ++ ttsDep req.tts_service
  ++ String.join (req.integrations.map integrationDep)

/-- Modelled from the spec: the container definition — a fixed skeleton
parameterised only by the entry-point filename. -/
def dockerfileText : String :=
  "FROM python:3.11-slim\nWORKDIR /app\nCOPY requirements.txt .\nRUN pip install -r requirements.txt\nCOPY . .\nCMD python bot.py\n"

/-- Modelled from the spec: the deployment descriptor — derived from the
slugged name and the deployment fields, with identity, image, secret-set
and a distinct scaling section. -/
def pccDeployToml (req : AgentRequirements) : String :=
  "agent_name = " ++ deploySlug req.name ++ "\n"
  ++ "image = " ++ deploySlug req.name ++ ":latest\n"
  ++ "secret_set = " ++ deploySlug req.name ++ "-secrets\n"
  ++ "[scaling]\nmin_agents = " ++ toString req.deployment.scaling_min
  ++ "\nmax_agents = " ++ toString req.deployment.scaling_max ++ "\n"

/-- Modelled from the spec: the auxiliary knowledge-processing module
exposing the well-known symbol consumed by the entry point. -/
def knowledgeProcessorPy (req : AgentRequirements) : String :=
  "class KnowledgeProcessor:\n    def __init__(self):\n        self.source_count = "
  ++ toString req.knowledge_sources.length ++ "\n"

/-- Modelled from the spec: `PipecatTemplateGenerator.generate_agent_files`
from the absent module `generation/templates.py` — a pure, deterministic,
total function from a requirements object to the file set with the four
required files plus the knowledge module exactly when knowledge sources are
present. -/
def generate_agent_files (req : AgentRequirements) : FileSet :=
  [("bot.py", botPy req), ("requirements.txt", requirementsManifest req),
    ("Dockerfile", dockerfileText), ("pcc-deploy.toml", pccDeployToml req)]
  ++ (if req.knowledge_sources.isEmpty then []
      else [("knowledge_processor.py", knowledgeProcessorPy req)])

/-- Claim C2: for every structurally valid requirements object the template
generator returns, without failing, a file set whose keys are exactly the
entry point, the dependency manifest, the container definition and the
deployment descriptor, plus the knowledge module iff `knowledge_sources` is
non-empty (totality is expressed by the total Lean function type). -/
theorem generate_agent_files_totality (req : AgentRequirements) :
    (generate_agent_files req).map Prod.fst =
      ["bot.py", "requirements.txt", "Dockerfile", "pcc-deploy.toml"]
        ++ (if req.knowledge_sources.isEmpty then [] else ["knowledge_processor.py"]) := by
  unfold generate_agent_files
  rcases hks : req.knowledge_sources with _ | ⟨k, ks⟩ <;> simp [hks]
